import Mathlib

/-!
Shallow embedding of the cart / order / promo logic of the CodeSchoolTgBot
repository (`src/database/db_helper.py` and the order-cancellation handler in
`src/handlers/orders.py`), together with proofs of the behavioural claims
about it.

Modelling conventions:
* money is `ℚ`;
* JSON-object collections keyed by ids (Python `dict`s) are association
  lists with Python-dict update semantics (in-place overwrite, append for a
  fresh key, deletion removes the entry);
* timestamps are integers (seconds); `datetime.now()` becomes an explicit
  `now` parameter threaded through the operations;
* the Python truthiness test `if cart.get("promo_code"):` is modelled
  exactly: the attached code must be present *and* be a non-empty string.
-/

namespace CodeSchoolBot

/-- Money amounts (prices, totals, discounts) are rationals. -/
abbrev Money := ℚ

/-! ### Association lists with Python-dict semantics -/

/-- Dictionary lookup: first binding of the key, if any. -/
def alLookup {κ α : Type} [DecidableEq κ] (k : κ) : List (κ × α) → Option α
  | [] => none
  | (k', v) :: rest => if k' = k then some v else alLookup k rest

/-- Dictionary write `d[k] = v`: overwrite in place, or append a fresh key. -/
def alInsert {κ α : Type} [DecidableEq κ] (k : κ) (v : α) :
    List (κ × α) → List (κ × α)
  | [] => [(k, v)]
  | (k', v') :: rest =>
      if k' = k then (k, v) :: rest else (k', v') :: alInsert k v rest

/-- Dictionary deletion `del d[k]`. -/
def alErase {κ α : Type} [DecidableEq κ] (k : κ) :
    List (κ × α) → List (κ × α)
  | [] => []
  | (k', v') :: rest =>
      if k' = k then rest else (k', v') :: alErase k rest

/-! ### Data model (`src/database/db_helper.py`) -/

/-- A menu item (`menu` entries). Only the fields the workflow reads. -/
structure MenuItem where
  id : Nat
  price : Money
  available : Bool
  deriving Repr, DecidableEq

/-- A promotional code record (`create_promo_code`). -/
structure Promo where
  code : String
  discount_type : String
  discount_value : Money
  min_order : Money
  used_count : Nat
  is_active : Bool
  deriving Repr, DecidableEq

/-- A saved delivery address (only the fields `add_user_address` touches). -/
structure Address where
  id : Nat
  is_default : Bool
  deriving Repr, DecidableEq

/-- Address data supplied by the caller of `add_user_address` (the `id` and
final `is_default` flag are assigned by the operation itself). -/
structure AddressInput where
  is_default : Bool
  deriving Repr, DecidableEq

/-- A user profile (`get_user` default record). -/
structure UserProfile where
  user_id : Nat
  loyalty_points : Int
  total_orders : Nat
  addresses : List Address
  deriving Repr, DecidableEq

/-- A shopping cart (`get_cart` default record).  Item quantities are `Int`
as in Python; the mapping is keyed by item id. -/
structure Cart where
  items : List (Nat × Int)
  total : Money
  discount : Money
  promo_code : Option String
  created_at : Int
  deriving Repr, DecidableEq

/-- An order record as built by `create_order`. -/
structure Order where
  order_id : Nat
  user_id : Nat
  items : List (Nat × Int)
  total : Money
  discount : Money
  delivery_fee : Money
  promo_code : Option String
  status : String
  created_at : Int
  updated_at : Int
  deriving Repr, DecidableEq

/-- The `settings` object (only the fields the workflow reads). -/
structure Settings where
  delivery_fee : Money
  min_order : Money
  deriving Repr, DecidableEq

/-- The whole JSON store (`self.data`), restricted to the collections the
claims are about. -/
structure Store where
  menu : List MenuItem
  users : List (Nat × UserProfile)
  carts : List (Nat × Cart)
  orders : List (Nat × Order)
  promo_codes : List (String × Promo)
  order_counter : Nat
  settings : Settings
  deriving Repr, DecidableEq

/-- `ORDER_STATUS_PENDING` from `utils/constants.py`. -/
def ORDER_STATUS_PENDING : String := "pending"

/-- `ORDER_STATUS_CANCELLED` from `utils/constants.py`. -/
def ORDER_STATUS_CANCELLED : String := "cancelled"

/-- `ORDER_CANCELLATION_LIMIT = 5` minutes (`utils/constants.py`), expressed
in seconds as the handler's `timedelta(minutes=5)`. -/
def ORDER_CANCELLATION_LIMIT_SECONDS : Int := 300

/-! ### Menu / user / cart accessors -/

/-- `get_item_by_id`: scan the (flattened) menu for the item. -/
def get_item_by_id (s : Store) (item_id : Nat) : Option MenuItem :=
  s.menu.find? (fun item => item.id == item_id)

/-- The default user profile created on first access by `get_user`. -/
def defaultUser (user_id : Nat) : UserProfile :=
  { user_id := user_id, loyalty_points := 0, total_orders := 0, addresses := [] }

/-- `get_user`: the stored profile, or the default profile for a new user. -/
def get_user (s : Store) (user_id : Nat) : UserProfile :=
  (alLookup user_id s.users).getD (defaultUser user_id)

/-- The empty cart record written by `get_cart` (first access) and
`clear_cart`. -/
def emptyCart (now : Int) : Cart :=
  { items := [], total := 0, discount := 0, promo_code := none, created_at := now }

/-- `get_cart`: the stored cart, or a fresh empty cart for a new user. -/
def get_cart (s : Store) (user_id : Nat) (now : Int) : Cart :=
  (alLookup user_id s.carts).getD (emptyCart now)

/-- `get_promo_code`: lookup in the `promo_codes` dictionary. -/
def get_promo_code (s : Store) (code : String) : Option Promo :=
  alLookup code s.promo_codes

/-- `get_order`: lookup in the `orders` dictionary. -/
def get_order (s : Store) (order_id : Nat) : Option Order :=
  alLookup order_id s.orders

/-- `_calculate_discount`: percentage promos scale the total, any other type
is a fixed amount clamped to the total. -/
def calculate_discount (total : Money) (promo : Promo) : Money :=
  if promo.discount_type = "percentage" then
    total * (promo.discount_value / 100)
  else
    min promo.discount_value total

/-- The loop body of `update_cart_total`: contribution of one cart entry to
the subtotal (`item["price"] * quantity` when the item exists and is
available, nothing otherwise). -/
def itemContribution (s : Store) (entry : Nat × Int) : Money :=
  match get_item_by_id s entry.1 with
  | some item => if item.available then item.price * (entry.2 : Money) else 0
  | none => 0

/-- The subtotal accumulated by `update_cart_total`'s loop. -/
def cart_subtotal (s : Store) (items : List (Nat × Int)) : Money :=
  items.foldl (fun acc entry => acc + itemContribution s entry) 0

/-- The body of `update_cart_total`: the cart record it writes back.
The total is recomputed first; then the discount.  The Python guard
`if cart.get("promo_code"):` is string truthiness, so an attached
empty-string code behaves like no code at all. -/
def recomputedCart (s : Store) (cart : Cart) : Cart :=
  let total := cart_subtotal s cart.items
  match cart.promo_code with
  | some code =>
      if code ≠ "" then
        match get_promo_code s code with
        | some promo =>
            if promo.is_active then
              { cart with total := total,
                          discount := calculate_discount total promo }
            else
              { cart with total := total, discount := 0, promo_code := none }
        | none =>
            { cart with total := total, discount := 0, promo_code := none }
      else
        { cart with total := total, discount := 0 }
  | none => { cart with total := total, discount := 0 }

/-- `update_cart_total`: recompute the user's cart total and discount and
write the cart back. -/
def update_cart_total (s : Store) (user_id : Nat) (now : Int) : Store :=
  { s with carts :=
      alInsert user_id (recomputedCart s (get_cart s user_id now)) s.carts }

/-- `add_to_cart`: add to an existing entry's quantity or insert a new
entry, then recompute totals. -/
def add_to_cart (s : Store) (user_id item_id : Nat) (quantity : Int)
    (now : Int) : Store :=
  let cart := get_cart s user_id now
  let items' :=
    match alLookup item_id cart.items with
    | some q => alInsert item_id (q + quantity) cart.items
    | none => alInsert item_id quantity cart.items
  let s' := { s with carts := alInsert user_id ({ cart with items := items' }) s.carts }
  update_cart_total s' user_id now

/-- `update_cart_item_quantity`: non-positive quantity deletes the entry,
otherwise the quantity is overwritten; totals are recomputed. -/
def update_cart_item_quantity (s : Store) (user_id item_id : Nat)
    (quantity : Int) (now : Int) : Store :=
  let cart := get_cart s user_id now
  let items' :=
    if quantity ≤ 0 then alErase item_id cart.items
    else alInsert item_id quantity cart.items
  let s' := { s with carts := alInsert user_id ({ cart with items := items' }) s.carts }
  update_cart_total s' user_id now

/-- `remove_from_cart` delegates to `update_cart_item_quantity` with 0. -/
def remove_from_cart (s : Store) (user_id item_id : Nat) (now : Int) : Store :=
  update_cart_item_quantity s user_id item_id 0 now

/-- `clear_cart`: reset the user's cart to the empty record (no-op when the
user has no cart entry at all). -/
def clear_cart (s : Store) (user_id : Nat) (now : Int) : Store :=
  match alLookup user_id s.carts with
  | some _ => { s with carts := alInsert user_id (emptyCart now) s.carts }
  | none => s

/-- The write `cart["promo_code"] = promo_code` performed by a successful
`apply_promo_code`, before the totals recomputation. -/
def cartWithPromo (s : Store) (user_id : Nat) (code : String) (now : Int) :
    Store :=
  let cart' := { get_cart s user_id now with promo_code := some code }
  { s with carts := alInsert user_id cart' s.carts }

/-- `apply_promo_code`: fail when the code is unknown or inactive; otherwise
attach it and recompute totals.  Returns the Python boolean result paired
with the updated store. -/
def apply_promo_code (s : Store) (user_id : Nat) (code : String)
    (now : Int) : Bool × Store :=
  match get_promo_code s code with
  | none => (false, s)
  | some promo =>
      if promo.is_active then
        (true, update_cart_total (cartWithPromo s user_id code now) user_id now)
      else
        (false, s)

/-- Python `int(q)` on a non-integral number: truncation toward zero. -/
def pyInt (q : Money) : Int :=
  if 0 ≤ q then ⌊q⌋ else ⌈q⌉

/-- The order record built by `create_order`: the next order id, a snapshot
of the cart's items, total, discount and promo code, the current delivery
fee from settings, status `pending`, and equal creation/update stamps. -/
def orderSnapshot (s : Store) (user_id : Nat) (now : Int) : Order :=
  let cart := get_cart s user_id now
  { order_id := s.order_counter
    user_id := user_id
    items := cart.items
    total := cart.total
    discount := cart.discount
    delivery_fee := s.settings.delivery_fee
    promo_code := cart.promo_code
    status := ORDER_STATUS_PENDING
    created_at := now
    updated_at := now }

/-- The user-stats update performed by `create_order`: one more lifetime
order, and `int(cart["total"] * 1)` loyalty points added. -/
def checkoutUser (s : Store) (user_id : Nat) (now : Int) : UserProfile :=
  let cart := get_cart s user_id now
  let user := get_user s user_id
  { user with
      total_orders := user.total_orders + 1
      loyalty_points := user.loyalty_points + pyInt (cart.total * 1) }

/-- `create_order`: checkout the user's cart.  Raises `ValueError("Cart is
empty")` on an empty item mapping; otherwise allocates the next order id,
snapshots the cart, updates the user's stats and loyalty points, and clears
the cart. -/
def create_order (s : Store) (user_id : Nat) (now : Int) :
    Except String (Nat × Store) :=
  let cart := get_cart s user_id now
  if cart.items.isEmpty then
    .error "Cart is empty"
  else
    let s' := { s with
      order_counter := s.order_counter + 1
      orders := alInsert s.order_counter (orderSnapshot s user_id now) s.orders
      users := alInsert user_id (checkoutUser s user_id now) s.users }
    .ok (s.order_counter, clear_cart s' user_id now)

/-- `update_order_status`: set the status and refresh `updated_at` when the
order exists; silently do nothing otherwise. -/
def update_order_status (s : Store) (order_id : Nat) (status : String)
    (now : Int) : Store :=
  match get_order s order_id with
  | some order =>
      let order' := { order with status := status, updated_at := now }
      { s with orders := alInsert order_id order' s.orders }
  | none => s

/-- `cancel_order` (store layer, `db_helper.py`): cancel iff the order
exists and is still pending. -/
def cancel_order (s : Store) (order_id : Nat) (now : Int) : Bool × Store :=
  match get_order s order_id with
  | some order =>
      if order.status = ORDER_STATUS_PENDING then
        let order' := { order with status := ORDER_STATUS_CANCELLED, updated_at := now }
        (true, { s with orders := alInsert order_id order' s.orders })
      else
        (false, s)
  | none => (false, s)

/-- `add_user_address`: allocate the next address id; the first address, or
any address submitted with `is_default`, demotes all existing defaults and
becomes the default itself. -/
def add_user_address (s : Store) (user_id : Nat) (addr : AddressInput) :
    Nat × Store :=
  let user := get_user s user_id
  let address_id := (user.addresses.foldl (fun m a => max m a.id) 0) + 1
  let addresses' :=
    if user.addresses.isEmpty || addr.is_default then
      (user.addresses.map (fun a => { a with is_default := false })) ++
        [{ id := address_id, is_default := true }]
    else
      user.addresses ++ [{ id := address_id, is_default := addr.is_default }]
  let user' := { user with addresses := addresses' }
  (address_id, { s with users := alInsert user_id user' s.users })

/-- `create_promo_code`: insert a new active promo unless the code is
already taken. -/
def create_promo_code (s : Store) (code : String) (discount_type : String)
    (discount_value : Money) (min_order : Money) : Bool × Store :=
  match get_promo_code s code with
  | some _ => (false, s)
  | none =>
      let promo : Promo :=
        { code := code,
          discount_type := discount_type,
          discount_value := discount_value,
          min_order := min_order,
          used_count := 0,
          is_active := true }
      (true, { s with promo_codes := alInsert code promo s.promo_codes })

/-- Modelled from the spec: promo deactivation (toggling a promo's
`is_active` flag, as an administrator would); no such operation exists in
`src/`, but claim C9 quantifies over it.  It rewrites only the
`promo_codes` collection. -/
def set_promo_active (s : Store) (code : String) (active : Bool) : Store :=
  match get_promo_code s code with
  | some promo =>
      { s with promo_codes :=
          alInsert code ({ promo with is_active := active }) s.promo_codes }
  | none => s

/-- `update_settings(delivery_fee=...)`: overwrite the delivery fee. -/
def update_delivery_fee (s : Store) (fee : Money) : Store :=
  { s with settings := { s.settings with delivery_fee := fee } }

/-! ### The user-facing cancellation handler (`src/handlers/orders.py`) -/

/-- Outcome reported by the `cancel_order` callback handler. -/
inductive CancelOutcome where
  | notFound
  | notPending
  | windowExpired
  | cancelled
  deriving Repr, DecidableEq

/-- The `cancel_order` callback handler: ownership check, pending check,
5-minute window check (`datetime.now() - created_at > timedelta(minutes=5)`
fails), then `update_order_status(order_id, ORDER_STATUS_CANCELLED)`. -/
def handler_cancel_order (s : Store) (order_id caller_id : Nat) (now : Int) :
    CancelOutcome × Store :=
  match get_order s order_id with
  | none => (.notFound, s)
  | some order =>
      if order.user_id ≠ caller_id then (.notFound, s)
      else if order.status ≠ ORDER_STATUS_PENDING then (.notPending, s)
      else if now - order.created_at > ORDER_CANCELLATION_LIMIT_SECONDS then
        (.windowExpired, s)
      else
        (.cancelled, update_order_status s order_id ORDER_STATUS_CANCELLED now)

/-! ### Specification-side definitions

These restate properties in the spec's own vocabulary, independently of the
loop/branch structure of the embedded code, so that the theorems compare
the code against them. -/

/-- Spec-side subtotal: the sum over cart entries of `price × quantity`,
restricted to items that currently exist and are available. -/
def specSubtotal (s : Store) (items : List (Nat × Int)) : Money :=
  (items.map (itemContribution s)).sum

/-- Number of addresses flagged as default. -/
def countDefaults (addrs : List Address) : Nat :=
  (addrs.filter (fun a => a.is_default)).length

/-- Run a whole sequence of `add_user_address` calls for one user. -/
def addAddressSeq (s : Store) (user_id : Nat) (inputs : List AddressInput) :
    Store :=
  inputs.foldl (fun st a => (add_user_address st user_id a).2) s

/-- The store operations other than checkout, as quantified over by the
frame claim about frozen order fields: cart mutations, promo-code changes
and deactivation, settings changes, and status updates. -/
inductive StoreOp where
  | addItem (u item : Nat) (q : Int)
  | setItemQuantity (u item : Nat) (q : Int)
  | removeItem (u item : Nat)
  | recomputeTotals (u : Nat)
  | applyPromo (u : Nat) (code : String)
  | clearCart (u : Nat)
  | updateStatus (oid : Nat) (st : String)
  | cancelOrder (oid : Nat)
  | createPromo (code dtype : String) (dval minOrd : Money)
  | setPromoActive (code : String) (b : Bool)
  | setDeliveryFee (fee : Money)
  deriving Repr, DecidableEq

/-- Interpret one store operation. -/
def applyOp (now : Int) (s : Store) : StoreOp → Store
  | .addItem u item q => add_to_cart s u item q now
  | .setItemQuantity u item q => update_cart_item_quantity s u item q now
  | .removeItem u item => remove_from_cart s u item now
  | .recomputeTotals u => update_cart_total s u now
  | .applyPromo u code => (apply_promo_code s u code now).2
  | .clearCart u => clear_cart s u now
  | .updateStatus oid st => update_order_status s oid st now
  | .cancelOrder oid => (cancel_order s oid now).2
  | .createPromo code dtype dval minOrd => (create_promo_code s code dtype dval minOrd).2
  | .setPromoActive code b => set_promo_active s code b
  | .setDeliveryFee fee => update_delivery_fee s fee

/-- `n` sequential checkouts: before each one, a unit of `item` is put in
the cart (checkout clears the cart, so it must be refilled); the returned
list collects the order ids issued. -/
def checkoutIds (now : Int) (u item : Nat) : Nat → Store → List Nat
  | 0, _ => []
  | n + 1, s =>
      let s1 := add_to_cart s u item 1 now
      match create_order s1 u now with
      | .ok (oid, s2) => oid :: checkoutIds now u item n s2
      | .error _ => []

/-- The totals invariant of claim C3: the stored total of the user's cart
equals the spec-side subtotal over its entries. -/
def cartTotalInv (s : Store) (u : Nat) (now : Int) : Prop :=
  (get_cart s u now).total = specSubtotal s (get_cart s u now).items

/-- The default-address invariant of claim C8: at most one default, and
exactly one as soon as the list is non-empty. -/
def addrInvariant (addrs : List Address) : Prop :=
  countDefaults addrs ≤ 1 ∧ (addrs ≠ [] → countDefaults addrs = 1)

/-! ### Concrete stores used by witnesses and counterexamples -/

/-- A two-item menu: item 1 available at price 10, item 2 unavailable. -/
def demoMenu : List MenuItem :=
  [{ id := 1, price := 10, available := true },
   { id := 2, price := 5, available := false }]

/-- A fresh store (all collections empty, counter at 1). -/
def freshStore : Store :=
  { menu := demoMenu, users := [], carts := [], orders := [],
    promo_codes := [], order_counter := 1,
    settings := { delivery_fee := 3, min_order := 15 } }

/-- An active 50% promo whose minimum-order threshold (100) is far above
the demo cart's subtotal. -/
def promoSale : Promo :=
  { code := "SALE", discount_type := "percentage", discount_value := 50,
    min_order := 100, used_count := 0, is_active := true }

/-- An inactive fixed promo. -/
def promoOff : Promo :=
  { code := "OFF", discount_type := "fixed", discount_value := 20,
    min_order := 0, used_count := 0, is_active := false }

/-- An active promo whose code is the empty string (creatable through
`create_promo_code`, or present in a loaded data file). -/
def promoEmptyCode : Promo :=
  { code := "", discount_type := "percentage", discount_value := 50,
    min_order := 0, used_count := 0, is_active := true }

/-- The fresh store with the three demo promos registered. -/
def storePromos : Store :=
  { freshStore with
      promo_codes := [("SALE", promoSale), ("OFF", promoOff),
                      ("", promoEmptyCode)] }

/-- `storePromos` after user 7 put 2 × item 1 in the cart (subtotal 20). -/
def storeCart : Store := add_to_cart storePromos 7 1 2 0

/-- `storeCart` after user 7 applied the (active, empty-string) promo code:
the cart now carries `promo_code = some ""`. -/
def storeEmptyPromoCart : Store := (apply_promo_code storeCart 7 "" 0).2

/-- A one-item menu whose item has the fractional price 23.70. -/
def menuFloor : List MenuItem :=
  [{ id := 3, price := 237/10, available := true }]

/-- A store whose cart holds one item priced 23.70 (subtotal 23.70). -/
def storeFloorCart : Store :=
  add_to_cart { freshStore with menu := menuFloor } 7 3 1 0

/-- A pending order, exactly 5 minutes old at time 300. -/
def pendingOrder : Order :=
  { order_id := 1, user_id := 7, items := [(1, 2)], total := 20,
    discount := 0, delivery_fee := 3, promo_code := none,
    status := ORDER_STATUS_PENDING, created_at := 0, updated_at := 0 }

/-- The fresh store holding `pendingOrder` under id 1. -/
def storeOrder : Store := { freshStore with orders := [(1, pendingOrder)] }

/-- A pending order that is ten years old (for the store-layer cancel,
which ignores elapsed time). -/
def oldPendingOrder : Order :=
  { pendingOrder with created_at := -315360000, updated_at := -315360000 }

/-- The fresh store holding `oldPendingOrder` under id 1. -/
def storeOldOrder : Store := { freshStore with orders := [(1, oldPendingOrder)] }

/-! ### Association-list lemmas -/

theorem alLookup_alInsert {κ α : Type} [DecidableEq κ] (k k' : κ) (v : α)
    (l : List (κ × α)) :
    alLookup k' (alInsert k v l) =
      if k = k' then some v else alLookup k' l := by
  induction l with
  | nil => by_cases h : k = k' <;> simp [alInsert, alLookup, h]
  | cons hd tl ih =>
      obtain ⟨k₀, v₀⟩ := hd
      by_cases h0 : k₀ = k
      · subst h0
        by_cases h1 : k₀ = k' <;> simp [alInsert, alLookup, h1]
      · by_cases h1 : k₀ = k'
        · subst h1
          have h0' : k ≠ k₀ := fun h => h0 h.symm
          simp [alInsert, alLookup, h0, h0']
        · simp [alInsert, alLookup, h0, h1, ih]

theorem alLookup_alInsert_self {κ α : Type} [DecidableEq κ] (k : κ) (v : α)
    (l : List (κ × α)) : alLookup k (alInsert k v l) = some v := by
  simp [alLookup_alInsert]

theorem alLookup_alInsert_ne {κ α : Type} [DecidableEq κ] {k k' : κ} (v : α)
    (l : List (κ × α)) (h : k ≠ k') :
    alLookup k' (alInsert k v l) = alLookup k' l := by
  simp [alLookup_alInsert, h]

theorem alInsert_ne_nil {κ α : Type} [DecidableEq κ] (k : κ) (v : α)
    (l : List (κ × α)) : alInsert k v l ≠ [] := by
  cases l with
  | nil => simp [alInsert]
  | cons hd tl =>
      obtain ⟨k₀, v₀⟩ := hd
      by_cases h : k₀ = k <;> simp [alInsert, h]

/-! ### Basic facts about the operations -/

theorem foldl_add_eq {α : Type} (f : α → Money) (l : List α) (acc : Money) :
    l.foldl (fun a e => a + f e) acc = acc + (l.map f).sum := by
  induction l generalizing acc with
  | nil => simp
  | cons hd tl ih => simp [ih, add_assoc]

/-- The loop of `update_cart_total` computes exactly the spec-side
subtotal. -/
theorem cart_subtotal_eq_specSubtotal (s : Store) (items : List (Nat × Int)) :
    cart_subtotal s items = specSubtotal s items := by
  unfold cart_subtotal specSubtotal
  rw [foldl_add_eq, zero_add]

/-- The subtotal only reads the menu. -/
theorem specSubtotal_menu_eq {s₁ s₂ : Store} (h : s₁.menu = s₂.menu)
    (items : List (Nat × Int)) : specSubtotal s₁ items = specSubtotal s₂ items := by
  unfold specSubtotal itemContribution get_item_by_id
  simp only [h]

theorem recomputedCart_items (s : Store) (c : Cart) :
    (recomputedCart s c).items = c.items := by
  unfold recomputedCart
  repeat' split
  all_goals rfl

theorem recomputedCart_total (s : Store) (c : Cart) :
    (recomputedCart s c).total = cart_subtotal s c.items := by
  unfold recomputedCart
  repeat' split
  all_goals rfl

theorem recomputedCart_created_at (s : Store) (c : Cart) :
    (recomputedCart s c).created_at = c.created_at := by
  unfold recomputedCart
  repeat' split
  all_goals rfl

theorem get_cart_update_cart_total (s : Store) (u : Nat) (now : Int) :
    get_cart (update_cart_total s u now) u now
      = recomputedCart s (get_cart s u now) := by
  simp [update_cart_total, get_cart, alLookup_alInsert_self]

theorem update_cart_total_menu (s : Store) (u : Nat) (now : Int) :
    (update_cart_total s u now).menu = s.menu := rfl

theorem update_cart_total_orders (s : Store) (u : Nat) (now : Int) :
    (update_cart_total s u now).orders = s.orders := rfl

theorem update_cart_total_order_counter (s : Store) (u : Nat) (now : Int) :
    (update_cart_total s u now).order_counter = s.order_counter := rfl

theorem add_to_cart_orders (s : Store) (u item : Nat) (q now : Int) :
    (add_to_cart s u item q now).orders = s.orders := rfl

theorem add_to_cart_order_counter (s : Store) (u item : Nat) (q now : Int) :
    (add_to_cart s u item q now).order_counter = s.order_counter := rfl

theorem update_cart_item_quantity_orders (s : Store) (u item : Nat)
    (q now : Int) : (update_cart_item_quantity s u item q now).orders = s.orders := rfl

theorem clear_cart_orders (s : Store) (u : Nat) (now : Int) :
    (clear_cart s u now).orders = s.orders := by
  unfold clear_cart
  cases alLookup u s.carts <;> rfl

theorem apply_promo_code_orders (s : Store) (u : Nat) (code : String)
    (now : Int) : ((apply_promo_code s u code now).2).orders = s.orders := by
  unfold apply_promo_code
  cases get_promo_code s code with
  | none => rfl
  | some p => by_cases h : p.is_active <;> simp [h] <;> rfl

theorem create_promo_code_orders (s : Store) (code dtype : String)
    (dval minOrd : Money) :
    ((create_promo_code s code dtype dval minOrd).2).orders = s.orders := by
  unfold create_promo_code
  cases get_promo_code s code <;> rfl

theorem set_promo_active_orders (s : Store) (code : String) (b : Bool) :
    (set_promo_active s code b).orders = s.orders := by
  unfold set_promo_active
  cases get_promo_code s code <;> rfl

/-- The cart written by `add_to_cart` before recomputation: the incremented
or inserted entry. -/
theorem get_cart_add_to_cart (s : Store) (u item : Nat) (q now : Int) :
    (get_cart (add_to_cart s u item q now) u now).items =
      (match alLookup item (get_cart s u now).items with
       | some q0 => alInsert item (q0 + q) (get_cart s u now).items
       | none => alInsert item q (get_cart s u now).items) := by
  unfold add_to_cart
  rw [get_cart_update_cart_total, recomputedCart_items]
  simp [get_cart, alLookup_alInsert_self]

/-- After `add_to_cart` the item mapping is non-empty. -/
theorem add_to_cart_items_ne_nil (s : Store) (u item : Nat) (q now : Int) :
    (get_cart (add_to_cart s u item q now) u now).items ≠ [] := by
  rw [get_cart_add_to_cart]
  cases alLookup item (get_cart s u now).items <;>
    simp [alInsert_ne_nil]

/-- `update_cart_total` establishes the totals invariant. -/
theorem cartTotalInv_update_cart_total (s : Store) (u : Nat) (now : Int) :
    cartTotalInv (update_cart_total s u now) u now := by
  unfold cartTotalInv
  rw [get_cart_update_cart_total, recomputedCart_total, recomputedCart_items,
    cart_subtotal_eq_specSubtotal]
  exact specSubtotal_menu_eq rfl _

theorem get_cart_cartWithPromo (s : Store) (u : Nat) (code : String)
    (now : Int) :
    get_cart (cartWithPromo s u code now) u now
      = { get_cart s u now with promo_code := some code } := by
  simp [cartWithPromo, get_cart, alLookup_alInsert_self]

/-- A successful `apply_promo_code` (code known and active) attaches the
code and recomputes totals. -/
theorem apply_promo_code_success (s : Store) (u : Nat) (code : String)
    (now : Int) (p : Promo) (hp : get_promo_code s code = some p)
    (ha : p.is_active = true) :
    apply_promo_code s u code now
      = (true, update_cart_total (cartWithPromo s u code now) u now) := by
  unfold apply_promo_code
  rw [hp]
  simp [ha]

/-- A failed `apply_promo_code` (code unknown or inactive) returns false
and does not change the store at all. -/
theorem apply_promo_code_failure (s : Store) (u : Nat) (code : String)
    (now : Int)
    (hmiss : get_promo_code s code = none ∨
      ∃ p, get_promo_code s code = some p ∧ p.is_active = false) :
    apply_promo_code s u code now = (false, s) := by
  unfold apply_promo_code
  rcases hmiss with hp | ⟨p, hp, hpa⟩ <;> rw [hp]
  simp [hpa]

/-- A cart that actually has items is present in the carts collection. -/
theorem get_cart_lookup_of_ne_nil (s : Store) (u : Nat) (now : Int)
    (h : (get_cart s u now).items ≠ []) :
    alLookup u s.carts = some (get_cart s u now) := by
  cases hl : alLookup u s.carts with
  | none =>
      exfalso
      apply h
      simp [get_cart, hl, emptyCart]
  | some c => simp [get_cart, hl]

/-- `create_order` on an empty cart raises `ValueError("Cart is empty")`. -/
theorem create_order_error (s : Store) (u : Nat) (now : Int)
    (h : (get_cart s u now).items = []) :
    create_order s u now = .error "Cart is empty" := by
  simp only [create_order]
  rw [h]
  simp

/-- `create_order` on a non-empty cart: the returned id is the current
counter, the counter advances, the order snapshot and updated user profile
are stored, and the cart is reset to the empty record. -/
theorem create_order_ok (s : Store) (u : Nat) (now : Int)
    (h : (get_cart s u now).items ≠ []) :
    create_order s u now = .ok (s.order_counter,
      { s with
          order_counter := s.order_counter + 1,
          orders := alInsert s.order_counter (orderSnapshot s u now) s.orders,
          users := alInsert u (checkoutUser s u now) s.users,
          carts := alInsert u (emptyCart now) s.carts }) := by
  have hfalse : (get_cart s u now).items.isEmpty = false := by
    cases hl : (get_cart s u now).items with
    | nil => exact absurd hl h
    | cons a l => rfl
  simp only [create_order, clear_cart]
  rw [hfalse]
  simp only [Bool.false_eq_true, if_false, get_cart_lookup_of_ne_nil s u now h]

/-- Sequential checkouts return the ids counted up from the current
counter value. -/
theorem checkoutIds_range (now : Int) (u item : Nat) (n : Nat) (s : Store) :
    checkoutIds now u item n s = List.range' s.order_counter n := by
  induction n generalizing s with
  | zero => rfl
  | succ n ih =>
      rw [checkoutIds]
      have hne := add_to_cart_items_ne_nil s u item 1 now
      rw [create_order_ok _ u now hne]
      simp only [ih]
      simp [add_to_cart_order_counter, List.range']

/-- Recomputation with an attached, existing, active, non-empty promo code:
the discount is recomputed from the current subtotal and the code stays. -/
theorem recomputedCart_active (s : Store) (c : Cart) (code : String)
    (hc : c.promo_code = some code) (hne : code ≠ "") (p : Promo)
    (hp : get_promo_code s code = some p) (ha : p.is_active = true) :
    (recomputedCart s c).promo_code = some code ∧
    (recomputedCart s c).discount
      = calculate_discount (cart_subtotal s c.items) p := by
  unfold recomputedCart
  rw [hc]
  simp [hne, hp, ha]

/-- Recomputation with an attached non-empty promo code that is missing or
inactive: the discount is zeroed and the code silently dropped. -/
theorem recomputedCart_dropped (s : Store) (c : Cart) (code : String)
    (hc : c.promo_code = some code) (hne : code ≠ "")
    (hmiss : get_promo_code s code = none ∨
      ∃ p, get_promo_code s code = some p ∧ p.is_active = false) :
    (recomputedCart s c).promo_code = none ∧
    (recomputedCart s c).discount = 0 := by
  unfold recomputedCart
  rw [hc]
  rcases hmiss with hmiss | ⟨p, hp, hpa⟩
  · simp [hne, hmiss]
  · simp [hne, hp, hpa]

/-- Recomputation with an attached *empty-string* promo code: the Python
truthiness test skips the promo branch, so the discount is zeroed but the
code is *not* cleared. -/
theorem recomputedCart_empty_code (s : Store) (c : Cart)
    (hc : c.promo_code = some "") :
    (recomputedCart s c).promo_code = some "" ∧
    (recomputedCart s c).discount = 0 := by
  unfold recomputedCart
  rw [hc]
  simp

/-- Updating the status of an existing order stores a record that differs
from it only in `status` and `updated_at`. -/
theorem get_order_update_order_status (s : Store) (oid : Nat) (st : String)
    (now : Int) (order : Order) (h : get_order s oid = some order) :
    get_order (update_order_status s oid st now) oid
      = some ({ order with status := st, updated_at := now }) := by
  simp only [update_order_status, h]
  simp [get_order, alLookup_alInsert_self]

/-- If any two stores agree on the orders collection, order lookup agrees. -/
theorem get_order_congr_orders {s₁ s₂ : Store} (h : s₁.orders = s₂.orders)
    (oid : Nat) : get_order s₁ oid = get_order s₂ oid := by
  unfold get_order
  rw [h]

theorem countDefaults_append (l₁ l₂ : List Address) :
    countDefaults (l₁ ++ l₂) = countDefaults l₁ + countDefaults l₂ := by
  simp [countDefaults, List.filter_append]

/-- Demoting every address clears all default flags. -/
theorem countDefaults_unset (l : List Address) :
    countDefaults (l.map (fun a => { a with is_default := false })) = 0 := by
  induction l with
  | nil => rfl
  | cons hd tl ih => simpa [countDefaults, List.filter_cons] using ih

/-- The profile stored by `add_user_address`. -/
theorem get_user_add_user_address (s : Store) (u : Nat) (a : AddressInput) :
    get_user (add_user_address s u a).2 u
      = { get_user s u with addresses :=
          if (get_user s u).addresses.isEmpty || a.is_default then
            ((get_user s u).addresses.map (fun x => { x with is_default := false }))
              ++ [{ id := (get_user s u).addresses.foldl (fun m x => max m x.id) 0 + 1,
                    is_default := true }]
          else
            (get_user s u).addresses
              ++ [{ id := (get_user s u).addresses.foldl (fun m x => max m x.id) 0 + 1,
                    is_default := a.is_default }] } := by
  simp [add_user_address, get_user, alLookup_alInsert_self]

/-- One `add_user_address` call preserves the default-address invariant. -/
theorem add_user_address_invariant (s : Store) (u : Nat) (a : AddressInput)
    (h : addrInvariant (get_user s u).addresses) :
    addrInvariant (get_user (add_user_address s u a).2 u).addresses := by
  rw [get_user_add_user_address]
  dsimp only
  split
  · refine ⟨?_, fun _ => ?_⟩ <;>
      simp [countDefaults_append, countDefaults_unset, countDefaults,
        List.filter_cons]
  · rename_i hcond
    rw [Bool.or_eq_true, not_or] at hcond
    obtain ⟨h1, h2⟩ := hcond
    have hne : (get_user s u).addresses ≠ [] := by
      intro hnil
      exact h1 (by simp [hnil])
    have hda : a.is_default = false := by
      cases hd : a.is_default
      · rfl
      · exact absurd hd h2
    have hcount := h.2 hne
    simp only [countDefaults] at hcount
    refine ⟨?_, fun _ => ?_⟩ <;>
      simp [countDefaults_append, countDefaults, List.filter_cons, hda, hcount]

/-- Updating the status of one order leaves every other order unchanged. -/
theorem get_order_update_order_status_ne (s : Store) (oid0 oid : Nat)
    (st : String) (now : Int) (hne : oid0 ≠ oid) :
    get_order (update_order_status s oid0 st now) oid = get_order s oid := by
  unfold update_order_status
  cases hp : get_order s oid0 with
  | none => rfl
  | some o0 => simp [get_order, alLookup_alInsert_ne _ _ hne]

/-- A store-layer cancel of an existing pending order: returns true and
rewrites exactly that order with status `cancelled` and a fresh
`updated_at`. -/
theorem cancel_order_self (s : Store) (oid : Nat) (now : Int) (order : Order)
    (h : get_order s oid = some order)
    (hs : order.status = ORDER_STATUS_PENDING) :
    cancel_order s oid now = (true, { s with orders := alInsert oid ({ order with status := ORDER_STATUS_CANCELLED, updated_at := now }) s.orders }) := by
  unfold cancel_order
  rw [h]
  simp [hs]

/-- A store-layer cancel of a missing or non-pending order is a no-op
returning false. -/
theorem cancel_order_noop (s : Store) (oid : Nat) (now : Int)
    (h : ∀ order, get_order s oid = some order →
      order.status ≠ ORDER_STATUS_PENDING) :
    cancel_order s oid now = (false, s) := by
  unfold cancel_order
  cases hp : get_order s oid with
  | none => rfl
  | some o0 => simp [h o0 hp]

/-- A store-layer cancel of one order leaves every other order unchanged. -/
theorem cancel_order_get_order_ne (s : Store) (oid0 oid : Nat) (now : Int)
    (hne : oid0 ≠ oid) :
    get_order (cancel_order s oid0 now).2 oid = get_order s oid := by
  unfold cancel_order
  cases hp : get_order s oid0 with
  | none => rfl
  | some o0 =>
      by_cases hs : o0.status = ORDER_STATUS_PENDING
      · simp [hs, get_order, alLookup_alInsert_ne _ _ hne]
      · simp [hs]

/-! ### Claims -/

/-- **C2.** The discount calculator is a pure function of (subtotal, promo):
for non-negative subtotal, a percentage promo yields `subtotal *
(discount_value / 100)` with no cap (strictly exceeding the subtotal when
the value exceeds 100 and the subtotal is positive), and a fixed promo
yields `min(discount_value, subtotal)`, never exceeding the subtotal. -/
theorem claim_C2 (total : Money) (p : Promo) (h : 0 ≤ total) :
    (p.discount_type = "percentage" →
       calculate_discount total p = total * (p.discount_value / 100) ∧
       (100 < p.discount_value → 0 < total →
         total < calculate_discount total p)) ∧
    (p.discount_type = "fixed" →
       calculate_discount total p = min p.discount_value total ∧
       calculate_discount total p ≤ total) := by
  constructor
  · intro hp
    refine ⟨by simp [calculate_discount, hp], ?_⟩
    intro hv ht
    have h1 : (1 : Money) < p.discount_value / 100 := by
      rw [lt_div_iff₀ (by norm_num : (0:Money) < 100)]
      linarith
    calc total = total * 1 := by ring
    _ < total * (p.discount_value / 100) := by
        exact mul_lt_mul_of_pos_left h1 ht
    _ = calculate_discount total p := by simp [calculate_discount, hp]
  · intro hp
    have hne : p.discount_type ≠ "percentage" := by simp [hp]
    exact ⟨by simp [calculate_discount, hne],
      by simp [calculate_discount, hne, min_le_right]⟩

/-- Witness for C2: a 150% promo on subtotal 10 yields 15 (exceeding the
subtotal), and a fixed promo of 20 on subtotal 10 yields 10 (clamped). -/
theorem claim_C2_witness :
    calculate_discount 10 ⟨"P150", "percentage", 150, 0, 0, true⟩ = 15 ∧
    calculate_discount 10 ⟨"F20", "fixed", 20, 0, 0, true⟩ = 10 := by
  have h1 := claim_C2 10 ⟨"P150", "percentage", 150, 0, 0, true⟩ (by norm_num)
  have h2 := claim_C2 10 ⟨"F20", "fixed", 20, 0, 0, true⟩ (by norm_num)
  constructor
  · rw [(h1.1 rfl).1]; norm_num
  · rw [(h2.2 rfl).1]
    exact min_eq_right (by norm_num)

/-- **C3.** After every cart mutation (`addItem`, `setItemQuantity`,
`removeItem`, and `applyPromo` whenever it reports success), the stored
cart total equals the sum of `price × quantity` over the entries whose
items are currently available; and the recomputation step leaves the item
mapping itself untouched, so entries for unavailable items stay in the cart
(contributing zero to the subtotal, by definition of `specSubtotal`). -/
theorem claim_C3 (s : Store) (u item : Nat) (q : Int) (code : String)
    (now : Int) :
    cartTotalInv (add_to_cart s u item q now) u now ∧
    cartTotalInv (update_cart_item_quantity s u item q now) u now ∧
    cartTotalInv (remove_from_cart s u item now) u now ∧
    ((apply_promo_code s u code now).1 = true →
      cartTotalInv (apply_promo_code s u code now).2 u now) ∧
    (get_cart (update_cart_total s u now) u now).items
      = (get_cart s u now).items := by
  refine ⟨?_, ?_, ?_, ?_, ?_⟩
  · unfold add_to_cart
    exact cartTotalInv_update_cart_total _ u now
  · unfold update_cart_item_quantity
    exact cartTotalInv_update_cart_total _ u now
  · unfold remove_from_cart update_cart_item_quantity
    exact cartTotalInv_update_cart_total _ u now
  · intro h
    cases hp : get_promo_code s code with
    | none =>
        rw [apply_promo_code_failure s u code now (Or.inl hp)] at h
        simp at h
    | some p =>
        cases ha : p.is_active with
        | true =>
            rw [apply_promo_code_success s u code now p hp ha]
            exact cartTotalInv_update_cart_total _ u now
        | false =>
            rw [apply_promo_code_failure s u code now (Or.inr ⟨p, hp, ha⟩)] at h
            simp at h
  · rw [get_cart_update_cart_total, recomputedCart_items]

/-- Witness for C3: on a concrete store, applying the active promo `SALE`
succeeds and the resulting cart satisfies the totals invariant. -/
theorem claim_C3_witness :
    (apply_promo_code storeCart 7 "SALE" 0).1 = true ∧
    cartTotalInv ((apply_promo_code storeCart 7 "SALE" 0).2) 7 0 :=
  ⟨by decide, (claim_C3 storeCart 7 1 2 "SALE" 0).2.2.2.1 (by decide)⟩

/-- **C6.** `applyPromo` returns false and leaves the whole store (hence
the cart's discount and promo-code fields) unchanged when the code is
unknown or inactive; otherwise it returns true, attaches the code and
recomputes totals — with no condition on the promo's minimum-order
threshold. -/
theorem claim_C6 (s : Store) (u : Nat) (code : String) (now : Int) :
    ((get_promo_code s code = none ∨
        ∃ p, get_promo_code s code = some p ∧ p.is_active = false) →
      apply_promo_code s u code now = (false, s)) ∧
    (∀ p, get_promo_code s code = some p → p.is_active = true →
      (apply_promo_code s u code now).1 = true ∧
      (get_cart (apply_promo_code s u code now).2 u now).promo_code
        = some code ∧
      cartTotalInv (apply_promo_code s u code now).2 u now) := by
  constructor
  · exact apply_promo_code_failure s u code now
  · intro p hp ha
    rw [apply_promo_code_success s u code now p hp ha]
    refine ⟨rfl, ?_, cartTotalInv_update_cart_total _ u now⟩
    rw [get_cart_update_cart_total, get_cart_cartWithPromo]
    by_cases hne : code = ""
    · subst hne
      exact (recomputedCart_empty_code _ _ rfl).1
    · refine (recomputedCart_active _ _ code rfl hne p ?_ ha).1
      exact hp

/-- Witness for C6: on the concrete store, the inactive promo `OFF` is
rejected with the store unchanged, and the active promo `SALE` is accepted
although its minimum-order threshold (100) exceeds the cart subtotal (20). -/
theorem claim_C6_witness :
    apply_promo_code storeCart 7 "OFF" 0 = (false, storeCart) ∧
    (apply_promo_code storeCart 7 "SALE" 0).1 = true ∧
    (get_cart (apply_promo_code storeCart 7 "SALE" 0).2 7 0).promo_code
      = some "SALE" ∧
    promoSale.min_order = 100 ∧
    (get_cart storeCart 7 0).total = 20 := by
  have h1 := (claim_C6 storeCart 7 "OFF" 0).1
    (Or.inr ⟨promoOff, by decide, by decide⟩)
  have h2 := (claim_C6 storeCart 7 "SALE" 0).2 promoSale (by decide) (by decide)
  refine ⟨h1, h2.1, h2.2.1, rfl, ?_⟩
  norm_num [storeCart, storePromos, freshStore, demoMenu, add_to_cart,
    update_cart_total, get_cart, recomputedCart, cart_subtotal,
    itemContribution, get_item_by_id, get_promo_code, alLookup, alInsert,
    emptyCart, promoSale, promoOff, promoEmptyCode, List.find?,
    calculate_discount]

/-- **C7 (amended).** For every cart with an attached *non-empty* promo
code, totals recomputation recomputes the discount from the current
subtotal when the promo exists and is active, and zeroes the discount and
silently clears the attached code when the promo is missing or inactive.
(The non-emptiness proviso is forced: the code's attachment test is Python
string truthiness, see `claim_C7_counterexample`.) -/
theorem claim_C7 (s : Store) (u : Nat) (now : Int) (code : String)
    (hc : (get_cart s u now).promo_code = some code) (hne : code ≠ "") :
    (∀ p, get_promo_code s code = some p → p.is_active = true →
      (get_cart (update_cart_total s u now) u now).discount
        = calculate_discount (specSubtotal s (get_cart s u now).items) p ∧
      (get_cart (update_cart_total s u now) u now).promo_code = some code) ∧
    ((get_promo_code s code = none ∨
        ∃ p, get_promo_code s code = some p ∧ p.is_active = false) →
      (get_cart (update_cart_total s u now) u now).discount = 0 ∧
      (get_cart (update_cart_total s u now) u now).promo_code = none) := by
  constructor
  · intro p hp ha
    rw [get_cart_update_cart_total]
    have h := recomputedCart_active s (get_cart s u now) code hc hne p hp ha
    rw [cart_subtotal_eq_specSubtotal] at h
    exact ⟨h.2, h.1⟩
  · intro hmiss
    rw [get_cart_update_cart_total]
    have h := recomputedCart_dropped s (get_cart s u now) code hc hne hmiss
    exact ⟨h.2, h.1⟩

/-- Counterexample to C7 as stated: a cart carrying the attached promo code
`""` — which exists in the store and is active.  Recomputation does *not*
recompute the discount from the current subtotal (it would be 10 on the
subtotal of 20); it sets the discount to 0 and does not clear the code. -/
theorem claim_C7_counterexample :
    (get_cart storeEmptyPromoCart 7 0).promo_code = some "" ∧
    get_promo_code storeEmptyPromoCart "" = some promoEmptyCode ∧
    promoEmptyCode.is_active = true ∧
    (get_cart (update_cart_total storeEmptyPromoCart 7 0) 7 0).discount = 0 ∧
    (get_cart (update_cart_total storeEmptyPromoCart 7 0) 7 0).promo_code
      = some "" ∧
    calculate_discount
      (specSubtotal storeEmptyPromoCart (get_cart storeEmptyPromoCart 7 0).items)
      promoEmptyCode = 10 := by
  norm_num +decide [storeEmptyPromoCart, storeCart, storePromos, freshStore,
    demoMenu, add_to_cart, apply_promo_code, cartWithPromo, update_cart_total,
    get_cart, recomputedCart, cart_subtotal, specSubtotal, itemContribution,
    get_item_by_id, get_promo_code, alLookup, alInsert, emptyCart, promoSale,
    promoOff, promoEmptyCode, List.find?, List.map, calculate_discount]

/-- Witness for C7: on the concrete store whose cart carries the promo
`SALE` (50%, active) and subtotal 20, recomputation sets the discount
to 10 and keeps the code. -/
theorem claim_C7_witness :
    (get_cart (update_cart_total (apply_promo_code storeCart 7 "SALE" 0).2 7 0) 7 0).discount
      = 10 ∧
    (get_cart (update_cart_total (apply_promo_code storeCart 7 "SALE" 0).2 7 0) 7 0).promo_code
      = some "SALE" := by
  have h := (claim_C7 (apply_promo_code storeCart 7 "SALE" 0).2 7 0 "SALE"
    (by decide) (by decide)).1 promoSale (by decide) (by decide)
  refine ⟨?_, h.2⟩
  rw [h.1]
  norm_num +decide [storeCart, storePromos, freshStore, demoMenu, add_to_cart,
    apply_promo_code, cartWithPromo, update_cart_total, get_cart,
    recomputedCart, cart_subtotal, specSubtotal, itemContribution,
    get_item_by_id, get_promo_code, alLookup, alInsert, emptyCart, promoSale,
    promoOff, promoEmptyCode, List.find?, List.map, calculate_discount]

/-- **C1.** Checkout on a cart with an empty item mapping fails with the
`Cart is empty` condition; on a non-empty cart it succeeds, returns the
current value of the strictly increasing order counter (which then
advances by one), and resets the user's cart to the empty record; `n`
sequential checkouts return the ids counted up from the current counter,
so a fresh store (counter 1) yields ids `1, 2, ..., n`. -/
theorem claim_C1 (s : Store) (u item : Nat) (now : Int) (n : Nat) :
    ((get_cart s u now).items = [] →
      create_order s u now = .error "Cart is empty") ∧
    ((get_cart s u now).items ≠ [] → ∃ s',
      create_order s u now = .ok (s.order_counter, s') ∧
      s'.order_counter = s.order_counter + 1 ∧
      get_cart s' u now = emptyCart now) ∧
    checkoutIds now u item n s = List.range' s.order_counter n := by
  refine ⟨create_order_error s u now, ?_, checkoutIds_range now u item n s⟩
  intro h
  refine ⟨_, create_order_ok s u now h, rfl, ?_⟩
  simp [get_cart, alLookup_alInsert_self]

/-- Witness for C1: on the fresh store checkout fails with `Cart is empty`
and three sequential checkouts yield ids `[1, 2, 3]`; on the store with a
non-empty cart checkout returns id 1, advances the counter to 2 and
empties the cart. -/
theorem claim_C1_witness :
    create_order freshStore 7 0 = .error "Cart is empty" ∧
    checkoutIds 0 7 1 3 freshStore = [1, 2, 3] ∧
    (∃ s', create_order storeCart 7 0 = .ok (1, s') ∧
      s'.order_counter = 2 ∧ get_cart s' 7 0 = emptyCart 0) := by
  refine ⟨(claim_C1 freshStore 7 1 0 3).1 (by decide), ?_, ?_⟩
  · rw [(claim_C1 freshStore 7 1 0 3).2.2]
    rfl
  · exact (claim_C1 storeCart 7 1 0 3).2.1 (by decide)

/-- **C5.** A successful checkout credits `floor(subtotal)` loyalty points
(Python `int()` truncation, which on the non-negative subtotal is the
floor), added to the user's prior total, and increments the lifetime order
count by exactly one. -/
theorem claim_C5 (s : Store) (u : Nat) (now : Int)
    (h : (get_cart s u now).items ≠ [])
    (hpos : 0 ≤ (get_cart s u now).total) :
    ∃ s', create_order s u now = .ok (s.order_counter, s') ∧
      (get_user s' u).loyalty_points
        = (get_user s u).loyalty_points + ⌊(get_cart s u now).total⌋ ∧
      (get_user s' u).total_orders = (get_user s u).total_orders + 1 := by
  refine ⟨_, create_order_ok s u now h, ?_, ?_⟩
  · simp [get_user, alLookup_alInsert_self, checkoutUser, pyInt, mul_one, hpos]
  · simp [get_user, alLookup_alInsert_self, checkoutUser]

/-- Witness for C5: checkout of a cart with subtotal 23.70 credits exactly
23 loyalty points to the fresh user (prior total 0) and sets the lifetime
order count to 1. -/
theorem claim_C5_witness :
    ∃ s', create_order storeFloorCart 7 0 = .ok (1, s') ∧
      (get_user s' 7).loyalty_points = 23 ∧
      (get_user s' 7).total_orders = 1 := by
  have hpos : (0:Money) ≤ (get_cart storeFloorCart 7 0).total := by
    norm_num +decide [storeFloorCart, freshStore, menuFloor, add_to_cart,
      update_cart_total, get_cart, recomputedCart, cart_subtotal,
      itemContribution, get_item_by_id, get_promo_code, alLookup, alInsert,
      emptyCart, List.find?, List.map]
  obtain ⟨s', h1, h2, h3⟩ := claim_C5 storeFloorCart 7 0 (by decide) hpos
  refine ⟨s', h1, ?_, ?_⟩
  · rw [h2]
    norm_num +decide [storeFloorCart, freshStore, menuFloor, add_to_cart,
      update_cart_total, get_cart, get_user, defaultUser, recomputedCart,
      cart_subtotal, itemContribution, get_item_by_id, get_promo_code,
      alLookup, alInsert, emptyCart, List.find?, List.map]
  · rw [h3]
    norm_num +decide [storeFloorCart, freshStore, menuFloor, add_to_cart,
      update_cart_total, get_cart, get_user, defaultUser, recomputedCart,
      cart_subtotal, itemContribution, get_item_by_id, get_promo_code,
      alLookup, alInsert, emptyCart, List.find?, List.map]

/-- **C4 (amended).** For an existing order owned by the caller:
user-initiated cancellation succeeds exactly when the status is `pending`
and the elapsed time since creation is *at most* the 5-minute limit (the
handler fails only on `elapsed > limit`, so at exactly 5 minutes it still
succeeds — see `claim_C4_counterexample`); on success it sets the status to
`cancelled` and refreshes the update timestamp; past the window it reports
window-expired and leaves the order unchanged. -/
theorem claim_C4 (s : Store) (oid caller : Nat) (now : Int) (order : Order)
    (hord : get_order s oid = some order) (hown : order.user_id = caller) :
    (order.status = ORDER_STATUS_PENDING ∧
        now - order.created_at ≤ ORDER_CANCELLATION_LIMIT_SECONDS →
      handler_cancel_order s oid caller now
        = (.cancelled, update_order_status s oid ORDER_STATUS_CANCELLED now) ∧
      get_order (handler_cancel_order s oid caller now).2 oid
        = some ({ order with status := ORDER_STATUS_CANCELLED, updated_at := now })) ∧
    (order.status = ORDER_STATUS_PENDING ∧
        ORDER_CANCELLATION_LIMIT_SECONDS < now - order.created_at →
      handler_cancel_order s oid caller now = (.windowExpired, s)) ∧
    ((handler_cancel_order s oid caller now).1 = .cancelled →
      order.status = ORDER_STATUS_PENDING ∧
      now - order.created_at ≤ ORDER_CANCELLATION_LIMIT_SECONDS) := by
  have hown' : ¬(order.user_id ≠ caller) := not_not_intro hown
  simp only [handler_cancel_order, hord]
  rw [if_neg hown']
  refine ⟨?_, ?_, ?_⟩
  · rintro ⟨hst, htime⟩
    rw [if_neg (not_not_intro hst), if_neg (not_lt.mpr htime)]
    exact ⟨rfl, get_order_update_order_status s oid _ now order hord⟩
  · rintro ⟨hst, htime⟩
    rw [if_neg (not_not_intro hst), if_pos htime]
  · intro hc
    by_cases hst : order.status = ORDER_STATUS_PENDING
    · by_cases ht : ORDER_CANCELLATION_LIMIT_SECONDS < now - order.created_at
      · rw [if_neg (not_not_intro hst), if_pos ht] at hc
        simp at hc
      · exact ⟨hst, not_lt.mp ht⟩
    · rw [if_pos hst] at hc
      simp at hc

/-- Counterexample to C4 as stated: a pending order cancelled exactly 300
seconds (exactly 5 minutes) after creation.  The claim allows success only
when the elapsed time is *below* the limit; the handler succeeds here. -/
theorem claim_C4_counterexample :
    (handler_cancel_order storeOrder 1 7 300).1 = CancelOutcome.cancelled ∧
    ¬(300 - pendingOrder.created_at < ORDER_CANCELLATION_LIMIT_SECONDS) ∧
    pendingOrder.status = ORDER_STATUS_PENDING ∧
    get_order storeOrder 1 = some pendingOrder ∧
    pendingOrder.user_id = 7 := by
  refine ⟨?_, by decide, rfl, by decide, rfl⟩
  decide

/-- Witness for C4: the same pending order cancelled 100 seconds after
creation succeeds and stores status `cancelled`; attempted 400 seconds
after creation it reports window-expired with the store unchanged. -/
theorem claim_C4_witness :
    handler_cancel_order storeOrder 1 7 100
      = (CancelOutcome.cancelled,
         update_order_status storeOrder 1 ORDER_STATUS_CANCELLED 100) ∧
    get_order (handler_cancel_order storeOrder 1 7 100).2 1
      = some ({ pendingOrder with status := ORDER_STATUS_CANCELLED, updated_at := 100 }) ∧
    handler_cancel_order storeOrder 1 7 400
      = (CancelOutcome.windowExpired, storeOrder) := by
  have h := claim_C4 storeOrder 1 7 100 pendingOrder (by decide) rfl
  have h400 := claim_C4 storeOrder 1 7 400 pendingOrder (by decide) rfl
  exact ⟨(h.1 ⟨rfl, by decide⟩).1, (h.1 ⟨rfl, by decide⟩).2,
    h400.2.1 ⟨rfl, by decide⟩⟩

/-- **C8.** Any sequence of `add_user_address` operations preserves the
default-address invariant: at most one address carries the default flag,
and exactly one does whenever the address list is non-empty. -/
theorem claim_C8 (s : Store) (u : Nat) (inputs : List AddressInput)
    (h : addrInvariant (get_user s u).addresses) :
    addrInvariant (get_user (addAddressSeq s u inputs) u).addresses := by
  induction inputs generalizing s with
  | nil => exact h
  | cons a rest ih => exact ih _ (add_user_address_invariant s u a h)

/-- Witness for C8: adding an address with `is_default = true` twice to a
fresh user leaves exactly one default among the two stored addresses. -/
theorem claim_C8_witness :
    addrInvariant
      (get_user (addAddressSeq freshStore 7 [⟨true⟩, ⟨true⟩]) 7).addresses ∧
    countDefaults
      (get_user (addAddressSeq freshStore 7 [⟨true⟩, ⟨true⟩]) 7).addresses = 1 ∧
    (get_user (addAddressSeq freshStore 7 [⟨true⟩, ⟨true⟩]) 7).addresses.length
      = 2 :=
  ⟨claim_C8 freshStore 7 [⟨true⟩, ⟨true⟩]
      ⟨by decide, fun hne => absurd rfl hne⟩,
    by decide, by decide⟩

/-- **C9.** An existing order's monetary fields (item mapping, total,
discount, promo code, delivery fee) are frozen: no cart mutation,
promo-code change or deactivation, settings change, or status update
alters them; a status update rewrites only `status` and `updated_at`; and
at creation the order snapshots the cart's items, total, discount and
promo code and stamps the current delivery fee. -/
theorem claim_C9 (s : Store) (op : StoreOp) (now : Int) (oid : Nat)
    (order : Order) (h : get_order s oid = some order) (st : String)
    (u : Nat) :
    (∃ order', get_order (applyOp now s op) oid = some order' ∧
       order'.items = order.items ∧ order'.total = order.total ∧
       order'.discount = order.discount ∧
       order'.promo_code = order.promo_code ∧
       order'.delivery_fee = order.delivery_fee) ∧
    (get_order (update_order_status s oid st now) oid
       = some ({ order with status := st, updated_at := now })) ∧
    (∀ oid' s', create_order s u now = .ok (oid', s') →
       ∃ o, get_order s' oid' = some o ∧
         o.items = (get_cart s u now).items ∧
         o.total = (get_cart s u now).total ∧
         o.discount = (get_cart s u now).discount ∧
         o.promo_code = (get_cart s u now).promo_code ∧
         o.delivery_fee = s.settings.delivery_fee ∧
         o.status = ORDER_STATUS_PENDING ∧
         o.created_at = now ∧ o.updated_at = now) := by
  refine ⟨?_, get_order_update_order_status s oid st now order h, ?_⟩
  · cases op with
    | addItem u0 i0 q0 =>
        refine ⟨order, ?_, rfl, rfl, rfl, rfl, rfl⟩
        simp only [applyOp]
        rw [get_order_congr_orders (add_to_cart_orders s u0 i0 q0 now) oid]
        exact h
    | setItemQuantity u0 i0 q0 =>
        refine ⟨order, ?_, rfl, rfl, rfl, rfl, rfl⟩
        simp only [applyOp]
        rw [get_order_congr_orders (update_cart_item_quantity_orders s u0 i0 q0 now) oid]
        exact h
    | removeItem u0 i0 =>
        refine ⟨order, ?_, rfl, rfl, rfl, rfl, rfl⟩
        simp only [applyOp, remove_from_cart]
        rw [get_order_congr_orders (update_cart_item_quantity_orders s u0 i0 0 now) oid]
        exact h
    | recomputeTotals u0 =>
        refine ⟨order, ?_, rfl, rfl, rfl, rfl, rfl⟩
        simp only [applyOp]
        rw [get_order_congr_orders (update_cart_total_orders s u0 now) oid]
        exact h
    | applyPromo u0 code0 =>
        refine ⟨order, ?_, rfl, rfl, rfl, rfl, rfl⟩
        simp only [applyOp]
        rw [get_order_congr_orders (apply_promo_code_orders s u0 code0 now) oid]
        exact h
    | clearCart u0 =>
        refine ⟨order, ?_, rfl, rfl, rfl, rfl, rfl⟩
        simp only [applyOp]
        rw [get_order_congr_orders (clear_cart_orders s u0 now) oid]
        exact h
    | createPromo code0 dtype0 dval0 minOrd0 =>
        refine ⟨order, ?_, rfl, rfl, rfl, rfl, rfl⟩
        simp only [applyOp]
        rw [get_order_congr_orders (create_promo_code_orders s code0 dtype0 dval0 minOrd0) oid]
        exact h
    | setPromoActive code0 b0 =>
        refine ⟨order, ?_, rfl, rfl, rfl, rfl, rfl⟩
        simp only [applyOp]
        rw [get_order_congr_orders (set_promo_active_orders s code0 b0) oid]
        exact h
    | setDeliveryFee fee0 =>
        exact ⟨order, h, rfl, rfl, rfl, rfl, rfl⟩
    | updateStatus oid0 st0 =>
        simp only [applyOp]
        by_cases heq : oid0 = oid
        · subst heq
          refine ⟨{ order with status := st0, updated_at := now }, ?_, rfl, rfl, rfl, rfl, rfl⟩
          exact get_order_update_order_status s oid0 st0 now order h
        · refine ⟨order, ?_, rfl, rfl, rfl, rfl, rfl⟩
          rw [get_order_update_order_status_ne s oid0 oid st0 now heq]
          exact h
    | cancelOrder oid0 =>
        simp only [applyOp]
        by_cases heq : oid0 = oid
        · subst heq
          by_cases hs : order.status = ORDER_STATUS_PENDING
          · rw [cancel_order_self s oid0 now order h hs]
            refine ⟨{ order with status := ORDER_STATUS_CANCELLED, updated_at := now }, ?_, rfl, rfl, rfl, rfl, rfl⟩
            simp [get_order, alLookup_alInsert_self]
          · have hno : ∀ o0, get_order s oid0 = some o0 →
                o0.status ≠ ORDER_STATUS_PENDING := by
              intro o0 hpo
              rw [h] at hpo
              injection hpo with e
              rw [← e]
              exact hs
            rw [cancel_order_noop s oid0 now hno]
            exact ⟨order, h, rfl, rfl, rfl, rfl, rfl⟩
        · refine ⟨order, ?_, rfl, rfl, rfl, rfl, rfl⟩
          rw [cancel_order_get_order_ne s oid0 oid now heq]
          exact h
  · intro oid' s' hok
    by_cases hc : (get_cart s u now).items = []
    · rw [create_order_error s u now hc] at hok
      exact absurd hok (by simp)
    · rw [create_order_ok s u now hc] at hok
      rw [Except.ok.injEq, Prod.mk.injEq] at hok
      obtain ⟨h1, h2⟩ := hok
      subst h1
      subst h2
      refine ⟨orderSnapshot s u now, ?_, rfl, rfl, rfl, rfl, rfl, rfl, rfl, rfl⟩
      simp [get_order, alLookup_alInsert_self]

/-- Witness for C9: on the store holding the pending order, a settings
change leaves the order's monetary fields intact, and a status update to
`confirmed` rewrites only `status` and `updated_at`. -/
theorem claim_C9_witness :
    (∃ order', get_order (applyOp 50 storeOrder (StoreOp.setDeliveryFee 99)) 1 = some order' ∧
       order'.items = pendingOrder.items ∧ order'.total = pendingOrder.total ∧
       order'.discount = pendingOrder.discount ∧
       order'.promo_code = pendingOrder.promo_code ∧
       order'.delivery_fee = pendingOrder.delivery_fee) ∧
    get_order (update_order_status storeOrder 1 "confirmed" 50) 1
      = some ({ pendingOrder with status := "confirmed", updated_at := 50 }) := by
  have h := claim_C9 storeOrder (StoreOp.setDeliveryFee 99) 50 1 pendingOrder
    (by decide) "confirmed" 7
  exact ⟨h.1, h.2.1⟩

/-- **C10.** The store-layer `cancel_order` succeeds iff an order with the
given id exists and is pending, regardless of elapsed time since creation;
on success it sets status `cancelled` and refreshes `updated_at`; in every
other case it returns false and leaves the store unchanged. -/
theorem claim_C10 (s : Store) (oid : Nat) (now : Int) :
    ((cancel_order s oid now).1 = true ↔
      ∃ order, get_order s oid = some order ∧
        order.status = ORDER_STATUS_PENDING) ∧
    (∀ order, get_order s oid = some order →
      order.status = ORDER_STATUS_PENDING →
      cancel_order s oid now = (true, { s with orders := alInsert oid ({ order with status := ORDER_STATUS_CANCELLED, updated_at := now }) s.orders }) ∧
      get_order (cancel_order s oid now).2 oid
        = some ({ order with status := ORDER_STATUS_CANCELLED, updated_at := now })) ∧
    ((cancel_order s oid now).1 = false → (cancel_order s oid now).2 = s) := by
  refine ⟨⟨?_, ?_⟩, ?_, ?_⟩
  · intro ht
    cases hp : get_order s oid with
    | none =>
        unfold cancel_order at ht
        rw [hp] at ht
        simp at ht
    | some o0 =>
        by_cases hs : o0.status = ORDER_STATUS_PENDING
        · exact ⟨o0, rfl, hs⟩
        · have hno : ∀ o, get_order s oid = some o →
              o.status ≠ ORDER_STATUS_PENDING := by
            intro o hpo
            rw [hp] at hpo
            injection hpo with e
            rw [← e]
            exact hs
          rw [cancel_order_noop s oid now hno] at ht
          simp at ht
  · rintro ⟨order, hp, hs⟩
    rw [cancel_order_self s oid now order hp hs]
  · intro order hp hs
    refine ⟨cancel_order_self s oid now order hp hs, ?_⟩
    rw [cancel_order_self s oid now order hp hs]
    simp [get_order, alLookup_alInsert_self]
  · intro hf
    cases hp : get_order s oid with
    | none =>
        unfold cancel_order
        rw [hp]
    | some o0 =>
        by_cases hs : o0.status = ORDER_STATUS_PENDING
        · rw [cancel_order_self s oid now o0 hp hs] at hf
          simp at hf
        · have hno : ∀ o, get_order s oid = some o →
              o.status ≠ ORDER_STATUS_PENDING := by
            intro o hpo
            rw [hp] at hpo
            injection hpo with e
            rw [← e]
            exact hs
          rw [cancel_order_noop s oid now hno]

/-- Witness for C10: a pending order that is ten years old is still
cancellable at the store layer (the 5-minute window is not checked there),
and cancelling a non-existent order returns false with the store
unchanged. -/
theorem claim_C10_witness :
    (cancel_order storeOldOrder 1 999).1 = true ∧
    get_order (cancel_order storeOldOrder 1 999).2 1
      = some ({ oldPendingOrder with status := ORDER_STATUS_CANCELLED, updated_at := 999 }) ∧
    (cancel_order freshStore 5 999).2 = freshStore := by
  have h := claim_C10 storeOldOrder 1 999
  have h2 := claim_C10 freshStore 5 999
  exact ⟨h.1.mpr ⟨oldPendingOrder, by decide, rfl⟩,
    (h.2.1 oldPendingOrder (by decide) rfl).2,
    h2.2.2 (by decide)⟩

end CodeSchoolBot
